import Mathlib

/-!
Shallow embedding of the charting functions of the ds-dataviz-assets
repository, together with proofs of the behavioural claims about them.

Numeric values are modelled by `ℚ` (every concrete float the Python code
manipulates is a rational); `NaN` cells are modelled by `none` in
`Option ℚ`.  Control limits that involve a square root are modelled in
`ℝ` via `Real.sqrt`.  A Python exception is modelled by the `PyError`
type and a fallible call by `Except PyError _`.
-/

namespace DsDataviz

/-- The Python exception kinds raised by the code under study. -/
inductive PyError where
  | valueError (msg : String)
  | keyError (msg : String)
  | zeroDivisionError
  | linAlgError
  deriving DecidableEq, Repr

/-- Is the error a `ValueError`?  (`raise ValueError(...)`). -/
def PyError.isValueError : PyError → Bool
  | .valueError _ => true
  | _ => false

/-- A pandas `DataFrame`: named columns of (possibly `NaN`) numeric cells. -/
structure DataFrame where
  cols : List (String × List (Option ℚ))
  deriving DecidableEq, Repr

/-- The column names of the frame. -/
def DataFrame.names (df : DataFrame) : List String := df.cols.map Prod.fst

/-- `df[name]`: column access, raising `KeyError` when absent. -/
def DataFrame.getCol (df : DataFrame) (name : String) :
    Except PyError (List (Option ℚ)) :=
  match df.cols.find? (fun c => c.1 == name) with
  | some c => .ok c.2
  | none => .error (.keyError name)

/-- `df.size`: the total number of cells of the frame (pandas counts
`NaN` cells too; for a rectangular frame this is `nrows * ncols`). -/
def DataFrame.size (df : DataFrame) : ℕ :=
  (df.cols.map (fun c => c.2.length)).sum

/-- The number of rows of the frame (length of its first column;
pandas frames are rectangular). -/
def DataFrame.nrows (df : DataFrame) : ℕ :=
  ((df.cols.head?).map (fun c => c.2.length)).getD 0

/-- Mean of a list of rationals (`Series.mean` on NaN-free data,
`np.mean`): sum divided by length. -/
def listMean (l : List ℚ) : ℚ := l.sum / l.length

/-- `df.index // s` grouping: chunk a list into consecutive groups of
`s` elements, the last group possibly shorter (`ceil (len / s)` groups). -/
def groupsOf (s : ℕ) (l : List α) : List (List α) :=
  (List.range ((l.length + s - 1) / s)).map (fun j => (l.drop (j * s)).take s)

/-- The first `k` exact chunks of size `s` (numpy `reshape((k, s))` of the
first `k*s` elements). -/
def chunksExact (s k : ℕ) (l : List α) : List (List α) :=
  (List.range k).map (fun j => (l.drop (j * s)).take s)

/-- `x < lower_spec` test against an optional lower limit; a missing
limit (`None`) never fires. -/
def belowSpecB (lower_spec : Option ℚ) (v : ℚ) : Bool :=
  match lower_spec with
  | some lv => decide (v < lv)
  | none => false

/-- `x > upper_spec` test against an optional upper limit. -/
def aboveSpecB (upper_spec : Option ℚ) (v : ℚ) : Bool :=
  match upper_spec with
  | some uv => decide (v > uv)
  | none => false

/-- `count_defects` of `c_chart.py`: one defect for falling strictly below
the lower limit plus one for rising strictly above the upper limit.
A `NaN` cell compares false against everything, hence counts 0. -/
def count_defects_c (lower_spec upper_spec : Option ℚ) (x : Option ℚ) : ℚ :=
  match x with
  | none => 0
  | some v =>
      (if belowSpecB lower_spec v then 1 else 0) +
      (if aboveSpecB upper_spec v then 1 else 0)

/-- `is_defective` of `np_chart.py`: 1 when strictly below the lower limit,
else 1 when strictly above the upper limit, else 0. -/
def is_defective_np (lower_spec upper_spec : Option ℚ) (x : Option ℚ) : ℚ :=
  match x with
  | none => 0
  | some v =>
      if belowSpecB lower_spec v then 1
      else if aboveSpecB upper_spec v then 1
      else 0

/-- `is_defective` of `p_chart.py` (same logic, separate source). -/
def is_defective_p (lower_spec upper_spec : Option ℚ) (x : Option ℚ) : ℚ :=
  match x with
  | none => 0
  | some v =>
      if belowSpecB lower_spec v then 1
      else if aboveSpecB upper_spec v then 1
      else 0

/-- `count_defects` of `u_chart.py` (same logic, separate source). -/
def count_defects_u (lower_spec upper_spec : Option ℚ) (x : Option ℚ) : ℚ :=
  match x with
  | none => 0
  | some v =>
      if belowSpecB lower_spec v then 1
      else if aboveSpecB upper_spec v then 1
      else 0

/-! ### c-chart (`src/spc/c_chart.py`) -/

/-- Result of `plot_c_chart`: the per-row defect counts, the centre line
and the two control limits. -/
structure CChartResult where
  defect_counts : List ℚ
  c_bar : ℚ
  UCL : ℝ
  LCL : ℝ

/-- `plot_c_chart`: guard on the specification limits, defect counting,
`CL = mean`, `UCL = CL + 3√CL`, `LCL = max(0, CL - 3√CL)`. -/
noncomputable def plot_c_chart (df : DataFrame) (column : String)
    (lower_spec upper_spec : Option ℚ) : Except PyError CChartResult :=
  if lower_spec = none ∧ upper_spec = none then
    .error (.valueError "You must define at least one specification limit.")
  else do
    let xs ← df.getCol column
    let defects := xs.map (count_defects_c lower_spec upper_spec)
    let c_bar := listMean defects
    .ok { defect_counts := defects
          c_bar := c_bar
          UCL := (c_bar : ℝ) + 3 * Real.sqrt (c_bar : ℚ)
          LCL := max 0 ((c_bar : ℝ) - 3 * Real.sqrt (c_bar : ℚ)) }

/-! ### np-chart (`src/spc/np_chart.py`) -/

/-- Result of `plot_np_chart`. -/
structure NpChartResult where
  np_values : List ℚ
  np_bar : ℚ
  p_bar : ℚ
  UCL : ℝ
  LCL : ℝ

/-- `plot_np_chart`: guard, per-row defectives, fixed-size subgroups by
`index // subgroup_size`, binomial control limits, `LCL` floored at 0. -/
noncomputable def plot_np_chart (df : DataFrame) (column : String)
    (subgroup_size : ℕ) (lower_spec upper_spec : Option ℚ) :
    Except PyError NpChartResult :=
  if lower_spec = none ∧ upper_spec = none then
    .error (.valueError "At least one of lower_spec or upper_spec must be specified.")
  else do
    let xs ← df.getCol column
    let defectives := xs.map (is_defective_np lower_spec upper_spec)
    let np_values := (groupsOf subgroup_size defectives).map List.sum
    let np_bar := listMean np_values
    let p_bar := np_bar / (subgroup_size : ℚ)
    .ok { np_values := np_values
          np_bar := np_bar
          p_bar := p_bar
          UCL := (subgroup_size : ℝ) *
            ((p_bar : ℝ) + 3 * Real.sqrt ((p_bar * (1 - p_bar) / subgroup_size : ℚ)))
          LCL := max 0 ((subgroup_size : ℝ) *
            ((p_bar : ℝ) - 3 * Real.sqrt ((p_bar * (1 - p_bar) / subgroup_size : ℚ)))) }

/-! ### p-chart (`src/spc/p_chart.py`) -/

/-- Result of `plot_p_chart`. -/
structure PChartResult where
  p_values : List ℚ
  p_bar : ℚ
  UCL : ℝ
  LCL : ℝ

/-- `plot_p_chart`: guard, per-row defectives, subgroup proportions
(defectives over actual subgroup count), binomial limits, floor at 0. -/
noncomputable def plot_p_chart (df : DataFrame) (column : String)
    (subgroup_size : ℕ) (lower_spec upper_spec : Option ℚ) :
    Except PyError PChartResult :=
  if lower_spec = none ∧ upper_spec = none then
    .error (.valueError "At least one of lower_spec or upper_spec must be defined.")
  else do
    let xs ← df.getCol column
    let defectives := xs.map (is_defective_p lower_spec upper_spec)
    let groups := groupsOf subgroup_size defectives
    let p_values := groups.map (fun g => g.sum / (g.length : ℚ))
    let p_bar := listMean p_values
    .ok { p_values := p_values
          p_bar := p_bar
          UCL := (p_bar : ℝ) + 3 * Real.sqrt ((p_bar * (1 - p_bar) / subgroup_size : ℚ))
          LCL := max 0 ((p_bar : ℝ) - 3 * Real.sqrt ((p_bar * (1 - p_bar) / subgroup_size : ℚ))) }

/-! ### u-chart (`src/spc/u_chart.py`) -/

/-- Result of `plot_u_chart`: per-row defect counts, rates, the centre
line and the row-varying control limits (`none` models a `NaN` cell). -/
structure UChartResult where
  defect_counts : List ℚ
  u : List (Option ℚ)
  u_bar : ℚ
  UCL : List (Option ℝ)
  LCL : List (Option ℝ)
  material : List (Option ℚ)

/-- `plot_u_chart`: guard, per-row defects, `u_i = defects_i / n_i`,
`ū = Σdefects / Σn`, row-varying limits `ū ± 3√(ū/n_i)` with the lower
one clipped at 0, and the hard-coded `material_salida` column access
used to build the hover text. -/
noncomputable def plot_u_chart (df : DataFrame) (column sample_size_col : String)
    (lower_spec upper_spec : Option ℚ) : Except PyError UChartResult :=
  if lower_spec = none ∧ upper_spec = none then
    .error (.valueError "At least one of lower_spec or upper_spec must be specified.")
  else do
    let xs ← df.getCol column
    let ns ← df.getCol sample_size_col
    let defects := xs.map (count_defects_u lower_spec upper_spec)
    let u := List.zipWith (fun d n? => n?.map (fun n => d / n)) defects ns
    let u_bar := defects.sum / (ns.filterMap id).sum
    let UCL := ns.map (fun n? => n?.map
      (fun n => (u_bar : ℝ) + 3 * Real.sqrt ((u_bar / n : ℚ))))
    let LCL := ns.map (fun n? => n?.map
      (fun n => max 0 ((u_bar : ℝ) - 3 * Real.sqrt ((u_bar / n : ℚ)))))
    let material ← df.getCol "material_salida"
    .ok { defect_counts := defects, u := u, u_bar := u_bar
          UCL := UCL, LCL := LCL, material := material }

/-! ### EWMA chart (`src/spc/ewma_chart.py`) -/

/-- The in-place loop of `plot_ewma_chart`:
`ewma[i] = lambda_value * x[i] + (1 - lambda_value) * ewma[i-1]`. -/
def ewmaAux (lambda_value prev : ℚ) : List ℚ → List ℚ
  | [] => []
  | v :: rest =>
      let e := lambda_value * v + (1 - lambda_value) * prev
      e :: ewmaAux lambda_value e rest

/-- The EWMA sequence of `plot_ewma_chart`: `ewma[0] = mean(x)` followed
by the recursive smoothing of the remaining observations. -/
def ewmaList (lambda_value : ℚ) (x : List ℚ) : List ℚ :=
  match x with
  | [] => []
  | _ :: tail =>
      let mu := listMean x
      mu :: ewmaAux lambda_value mu tail

/-- Result of `plot_ewma_chart` on the extracted value column `x`:
the EWMA trace, the centre line `mu` and the time-varying limits. -/
structure EwmaResult where
  ewma : List ℚ
  mu : ℚ
  ucl : List ℝ
  lcl : List ℝ

/-- `plot_ewma_chart` on the value column `x` (the source reads
`x = df[value_column].values` and charts it): EWMA smoothing started at
the process mean, with the closed-form variance limits
`mu ± L·σ·√(λ/(2-λ))·√(1-(1-λ)^(2(i+1)))`. -/
noncomputable def plot_ewma_chart (x : List ℚ) (lambda_value : ℚ)
    (l_value : ℚ) : EwmaResult :=
  let mu := listMean x
  let sigma : ℝ :=
    Real.sqrt (((x.map (fun v => (v - mu) ^ 2)).sum / ((x.length : ℚ) - 1) : ℚ))
  let std_dev : List ℝ := (List.range x.length).map (fun i =>
    Real.sqrt ((lambda_value / (2 - lambda_value) : ℚ)) * sigma *
      Real.sqrt (1 - ((1 - lambda_value : ℚ) : ℝ) ^ (2 * (i + 1))))
  { ewma := ewmaList lambda_value x
    mu := mu
    ucl := std_dev.map (fun s => (mu : ℝ) + (l_value : ℝ) * s)
    lcl := std_dev.map (fun s => (mu : ℝ) - (l_value : ℝ) * s) }

/-! ### I-MR chart (`src/spc/imr_chart.py`) -/

/-- Result of `plot_imr_chart`. -/
structure ImrResult where
  data : List ℚ
  moving_ranges : List ℚ
  X_bar : ℚ
  MR_bar : ℚ
  UCL_x : ℚ
  LCL_x : ℚ
  UCL_mr : ℚ
  LCL_mr : ℚ

/-- `plot_imr_chart`: drop `NaN`, require at least 2 points, moving
ranges `|x[i+1] - x[i]|`, and limits from the fixed `n = 2` constants
`E2 = 2.659`, `D3 = 0`, `D4 = 3.267`. -/
def plot_imr_chart (value_col : List (Option ℚ)) :
    Except PyError ImrResult :=
  let data := value_col.filterMap id
  if data.length < 2 then
    .error (.valueError "At least 2 data points required for Moving Range calculation")
  else
    let moving_ranges := List.zipWith (fun a b => |b - a|) data data.tail
    let X_bar := listMean data
    let MR_bar := listMean moving_ranges
    let E2 : ℚ := 2.659
    let D3 : ℚ := 0
    let D4 : ℚ := 3.267
    .ok { data := data
          moving_ranges := moving_ranges
          X_bar := X_bar, MR_bar := MR_bar
          UCL_x := X_bar + E2 * MR_bar, LCL_x := X_bar - E2 * MR_bar
          UCL_mr := D4 * MR_bar, LCL_mr := D3 * MR_bar }

/-! ### X-bar/R chart (`src/spc_charts/x_bar_r.py`) -/

/-- `A2` constant table keyed by subgroup size (2-10). -/
def constA2 : ℕ → Option ℚ
  | 2 => some 1.88 | 3 => some 1.023 | 4 => some 0.729 | 5 => some 0.577
  | 6 => some 0.483 | 7 => some 0.419 | 8 => some 0.373 | 9 => some 0.337
  | 10 => some 0.308 | _ => none

/-- `D3` constant table keyed by subgroup size (2-10). -/
def constD3 : ℕ → Option ℚ
  | 2 => some 0 | 3 => some 0 | 4 => some 0 | 5 => some 0
  | 6 => some 0 | 7 => some 0.076 | 8 => some 0.136 | 9 => some 0.184
  | 10 => some 0.223 | _ => none

/-- `D4` constant table keyed by subgroup size (2-10). -/
def constD4 : ℕ → Option ℚ
  | 2 => some 3.267 | 3 => some 2.574 | 4 => some 2.282 | 5 => some 2.114
  | 6 => some 2.004 | 7 => some 1.924 | 8 => some 1.864 | 9 => some 1.816
  | 10 => some 1.777 | _ => none

/-- `A3` constant table of the S chart. -/
def constA3 : ℕ → Option ℚ
  | 2 => some 2.659 | 3 => some 1.954 | 4 => some 1.628 | 5 => some 1.427
  | 6 => some 1.287 | 7 => some 1.182 | 8 => some 1.099 | 9 => some 1.032
  | 10 => some 0.975 | _ => none

/-- `B3` constant table of the S chart. -/
def constB3 : ℕ → Option ℚ
  | 2 => some 0 | 3 => some 0 | 4 => some 0 | 5 => some 0
  | 6 => some 0.030 | 7 => some 0.118 | 8 => some 0.185 | 9 => some 0.239
  | 10 => some 0.284 | _ => none

/-- `B4` constant table of the S chart. -/
def constB4 : ℕ → Option ℚ
  | 2 => some 3.267 | 3 => some 2.568 | 4 => some 2.266 | 5 => some 2.089
  | 6 => some 1.970 | 7 => some 1.882 | 8 => some 1.815 | 9 => some 1.761
  | 10 => some 1.716 | _ => none

/-- `np.ptp`: max minus min of a (nonempty) group. -/
def listPtp (l : List ℚ) : ℚ :=
  match l with
  | [] => 0
  | v :: rest => rest.foldl max v - rest.foldl min v

/-- Result of `xbar_r_chart_plotly`. -/
structure XbarRResult where
  xbars : List ℚ
  ranges : List ℚ
  Xbar_bar : ℚ
  R_bar : ℚ
  UCL_x : ℚ
  LCL_x : ℚ
  UCL_R : ℚ
  LCL_R : ℚ
  grouping_subgroups : List (List String)

/-- `xbar_r_chart_plotly`: drop `NaN`, `k = m // s` complete subgroups
(`ZeroDivisionError` for `s = 0`, a data-shape `ValueError` for `k = 0`),
subgroup means and ranges, constants looked up in the 2-10 table with a
`ValueError` on an unsupported size. -/
def xbar_r_chart_plotly (values : List (Option ℚ)) (grouping : List String)
    (subgroup_size : ℕ) : Except PyError XbarRResult :=
  let data := values.filterMap id
  let indices := (List.range values.length).filter
    (fun i => (values.getD i none).isSome)
  if subgroup_size = 0 then .error .zeroDivisionError
  else
    let k := data.length / subgroup_size
    if k = 0 then
      .error (.valueError "Subgroup size is larger than the number of non-NA data points.")
    else
      let groups := chunksExact subgroup_size k data
      let xbars := groups.map listMean
      let ranges := groups.map listPtp
      let Xbar_bar := listMean xbars
      let R_bar := listMean ranges
      match constA2 subgroup_size, constD3 subgroup_size, constD4 subgroup_size with
      | some A2, some D3, some D4 =>
          .ok { xbars := xbars, ranges := ranges
                Xbar_bar := Xbar_bar, R_bar := R_bar
                UCL_x := Xbar_bar + A2 * R_bar, LCL_x := Xbar_bar - A2 * R_bar
                UCL_R := D4 * R_bar, LCL_R := D3 * R_bar
                grouping_subgroups := (chunksExact subgroup_size k indices).map
                  (fun g => g.map (fun i => grouping.getD i "")) }
      | _, _, _ =>
          .error (.valueError ("Subgroup size " ++ toString subgroup_size ++
            " not supported. Valid sizes: 2-10"))

/-- Sample variance with `ddof = 1` (the quantity under `np.std(·, ddof=1)`). -/
def sampleVar (g : List ℚ) : ℚ :=
  (g.map (fun v => (v - listMean g) ^ 2)).sum / ((g.length : ℚ) - 1)

/-- Result of `plot_xbar_s_chart`. -/
structure XbarSResult where
  xbars : List ℚ
  s_values : List ℝ
  Xbar_bar : ℚ
  S_bar : ℝ
  UCL_x : ℝ
  LCL_x : ℝ
  UCL_S : ℝ
  LCL_S : ℝ
  material_subgroups : List (List String)

/-- `plot_xbar_s_chart` (`src/spc/x_bar_s.py`): same subgroup preparation
as the X-bar/R chart, with per-subgroup sample standard deviations and the
`A3`/`B3`/`B4` constant table. -/
noncomputable def plot_xbar_s_chart (values : List (Option ℚ))
    (grouping : List String) (subgroup_size : ℕ) :
    Except PyError XbarSResult :=
  let data := values.filterMap id
  let indices := (List.range values.length).filter
    (fun i => (values.getD i none).isSome)
  if subgroup_size = 0 then .error .zeroDivisionError
  else
    let k := data.length / subgroup_size
    if k = 0 then
      .error (.valueError "Subgroup size is larger than the number of non-NA data points.")
    else
      let groups := chunksExact subgroup_size k data
      let xbars := groups.map listMean
      let s_values : List ℝ := groups.map (fun g => Real.sqrt (sampleVar g))
      let Xbar_bar := listMean xbars
      let S_bar : ℝ := s_values.sum / (s_values.length : ℝ)
      match constA3 subgroup_size, constB3 subgroup_size, constB4 subgroup_size with
      | some A3, some B3, some B4 =>
          .ok { xbars := xbars, s_values := s_values
                Xbar_bar := Xbar_bar, S_bar := S_bar
                UCL_x := (Xbar_bar : ℝ) + (A3 : ℝ) * S_bar
                LCL_x := (Xbar_bar : ℝ) - (A3 : ℝ) * S_bar
                UCL_S := (B4 : ℝ) * S_bar, LCL_S := (B3 : ℝ) * S_bar
                material_subgroups := (chunksExact subgroup_size k indices).map
                  (fun g => g.map (fun i => grouping.getD i "")) }
      | _, _, _ =>
          .error (.valueError ("Subgroup size " ++ toString subgroup_size ++
            " not supported. Valid sizes: 2-10"))

/-! ### ECDF (`src/standard/ecdf.py`) -/

/-- Result of `plot_ecdf`: the sorted non-NA column values and the
plotted cumulative sequence `y`. -/
structure EcdfResult where
  sorted_values : List ℚ
  y : List ℚ
  deriving DecidableEq, Repr

/-- `plot_ecdf`: sorts the non-NA values of the chosen column but then
sets `n = data.size` — the cell count of the *whole original frame*
(rows times columns, `NaN` included) — and plots
`y = arange(1, n + 1) / n`. -/
def plot_ecdf (data : DataFrame) (numeric_col : String) :
    Except PyError EcdfResult := do
  let colv ← data.getCol numeric_col
  let sorted := (colv.filterMap id).insertionSort (fun a b => a ≤ b)
  let n := data.size
  .ok { sorted_values := sorted
        y := (List.range n).map (fun i => ((i + 1 : ℕ) : ℚ) / (n : ℚ)) }

/-- Result of `plot_cumulative_error_distribution`
(`src/model/cummulative_residuals.py`). -/
structure CumulativeErrorResult where
  sorted_residuals : List ℚ
  ecdf : List ℚ
  deriving DecidableEq, Repr

/-- `plot_cumulative_error_distribution` on the extracted target column
`y_true` and the external model predictions `y_pred`: absolute residuals,
sorted, with `ecdf = arange(1, len + 1) / len`. -/
def plot_cumulative_error_distribution (y_true y_pred : List ℚ) :
    CumulativeErrorResult :=
  let residuals := List.zipWith (fun a p => |a - p|) y_true y_pred
  let sorted := residuals.insertionSort (fun a b => a ≤ b)
  let m := sorted.length
  { sorted_residuals := sorted
    ecdf := (List.range m).map (fun i => ((i + 1 : ℕ) : ℚ) / (m : ℚ)) }

/-! ### Hotelling T² chart (`src/spc/t2_chart.py`) -/

/-- `df[numeric_columns]` as a list of rows of (possibly `NaN`) cells,
`KeyError` when a requested column is absent. -/
def selectNumericRows (df : DataFrame) (numeric_columns : List String) :
    Except PyError (List (List (Option ℚ))) := do
  let cols ← numeric_columns.mapM df.getCol
  .ok ((List.range df.nrows).map (fun i => cols.map (fun c => c.getD i none)))

/-- `.dropna()` on rows: keep exactly the rows with no `NaN` cell. -/
def dropnaRows (rows : List (List (Option ℚ))) : List (List ℚ) :=
  rows.filterMap (fun r => if r.all Option.isSome then some (r.filterMap id) else none)

/-- Column mean of the data matrix (`np.nanmean(X, axis=0)` after the
rows were already dropped). -/
def colMeanAt (X : List (List ℚ)) (j : ℕ) : ℚ :=
  listMean (X.map (fun r => r.getD j 0))

/-- `np.cov(X, rowvar=False)`: the sample covariance matrix with
denominator `n - 1`. -/
def covMatrix (X : List (List ℚ)) (p : ℕ) : Matrix (Fin p) (Fin p) ℚ :=
  Matrix.of fun j k =>
    ((X.map (fun r =>
      (r.getD (j : ℕ) 0 - colMeanAt X j) * (r.getD (k : ℕ) 0 - colMeanAt X k))).sum) /
      ((X.length : ℚ) - 1)

/-- `np.linalg.inv`: raises `LinAlgError` on a singular matrix, otherwise
returns `det⁻¹ • adjugate`, the inverse matrix. -/
def np_linalg_inv {p : ℕ} (S : Matrix (Fin p) (Fin p) ℚ) :
    Except PyError (Matrix (Fin p) (Fin p) ℚ) :=
  if S.det = 0 then .error .linAlgError
  else .ok ((S.det)⁻¹ • S.adjugate)

/-- One step of the T² loop: `diff @ S_inv @ diff.T` for the row `r`. -/
def t2_of_row {p : ℕ} (S_inv : Matrix (Fin p) (Fin p) ℚ) (mean : Fin p → ℚ)
    (r : List ℚ) : ℚ :=
  (List.ofFn (fun j : Fin p => (r.getD (j : ℕ) 0 - mean j) *
    (List.ofFn (fun k : Fin p => S_inv j k * (r.getD (k : ℕ) 0 - mean k))).sum)).sum

/-- The UCL scale factor `p (n-1)(n+1) / (n (n-p))` of the T² chart. -/
def t2Scale (p n : ℕ) : ℚ :=
  (p : ℚ) * ((n : ℚ) - 1) * ((n : ℚ) + 1) / ((n : ℚ) * ((n : ℚ) - (p : ℚ)))

/-- Result of `plot_t2_chart`: the per-row T² statistics and the UCL. -/
structure T2Result where
  T2 : List ℚ
  UCL : ℚ
  deriving DecidableEq, Repr

/-- `plot_t2_chart`: select the numeric columns and drop `NaN` rows,
access the hard-coded `material_salida` column, invert the sample
covariance matrix (`LinAlgError` propagates uncaught), compute
`diff @ S_inv @ diff.T` per row, and scale the external F-quantile
`f_ppf` (the value `scipy.stats.f.ppf(1 - alpha, p, n - p)`) by
`p (n-1)(n+1) / (n (n-p))`.  Building the summary frame then raises a
`ValueError` when `dropna` removed rows, because the label column kept
its original length. -/
def plot_t2_chart (df : DataFrame) (numeric_columns : List String)
    (f_ppf : ℚ) : Except PyError T2Result := do
  let rowsRaw ← selectNumericRows df numeric_columns
  let X := dropnaRows rowsRaw
  let material ← df.getCol "material_salida"
  let n := X.length
  let p := numeric_columns.length
  let S := covMatrix X p
  let S_inv ← np_linalg_inv S
  let T2 := X.map (t2_of_row S_inv (fun j => colMeanAt X j))
  if n ≠ material.length then
    .error (.valueError "All arrays must be of the same length")
  else
    .ok { T2 := T2, UCL := t2Scale p n * f_ppf }

/-! ### SHAP waterfall and decision plots (`src/shappley/`) -/

/-- The waterfall ordering: the row's SHAP values sorted by descending
absolute value (`abs(row_shap_values).argsort()[::-1]`). -/
def waterfall_sorted_shap (row : List ℚ) : List ℚ :=
  row.insertionSort (fun a b => |b| ≤ |a|)

/-- Result of `plot_shap_waterfall_catboost`: the plotted bars in order
and the two annotated scalars. -/
structure WaterfallResult where
  sorted_shap : List ℚ
  base_value : ℚ
  predicted_value : ℚ
  deriving DecidableEq, Repr

/-- `plot_shap_waterfall_catboost` on the explainer output (`base_values`
and per-row `shap_values` are produced by the external `shap.Explainer`):
the row's own base value, its SHAP values in descending-absolute order,
and the annotated `Prediction = base_value + row_shap_values.sum()`. -/
def plot_shap_waterfall_catboost (base_values : List ℚ)
    (shap_values : List (List ℚ)) (row_index : ℕ) : WaterfallResult :=
  let row := shap_values.getD row_index []
  let base := base_values.getD row_index 0
  { sorted_shap := waterfall_sorted_shap row
    base_value := base
    predicted_value := base + row.sum }

/-- `plot_shap_decision_catboost`, the cumulative trace of one plotted
row: `np.cumsum(np.insert(row_values, 0, 0)) + base_value` where
`base_value = shap_values.base_values[0]` — the *first* row's base value,
whichever row is being plotted. -/
def plot_shap_decision_catboost (base_values : List ℚ)
    (shap_values : List (List ℚ)) (idx : ℕ) : List ℚ :=
  let base0 := base_values.getD 0 0
  let row := shap_values.getD idx []
  (List.range (row.length + 1)).map (fun k => base0 + (row.take k).sum)

/-! ### Statement abbreviations and concrete data -/

/-- A call that did not trip the specification-limit guard: it either
returned a figure or failed on a missing column. -/
def okOrKeyError {α : Type} (e : Except PyError α) : Prop :=
  (∃ r, e = .ok r) ∨ (∃ m, e = .error (.keyError m))

/-- The external explainer contract (spec §6): per row, the baseline plus
the attribution vector sums to the model's prediction for that row. -/
def shapContract (base_values : List ℚ) (shap_values : List (List ℚ))
    (preds : List ℚ) : Prop :=
  ∀ i, i < shap_values.length →
    base_values.getD i 0 + (shap_values.getD i []).sum = preds.getD i 0

/-- What `plot_t2_chart` guarantees given the raw selected rows and the
label column: a genuine two-sided inverse of the sample covariance matrix
is used in the per-row quadratic form, the UCL is the scaled F-quantile,
and a singular covariance matrix propagates as the inversion error. -/
def t2ClaimProp (df : DataFrame) (numeric_columns : List String)
    (f_ppf : ℚ) (rowsRaw : List (List (Option ℚ)))
    (material : List (Option ℚ)) : Prop :=
  ((covMatrix (dropnaRows rowsRaw) numeric_columns.length).det ≠ 0 →
    ∃ B, np_linalg_inv (covMatrix (dropnaRows rowsRaw) numeric_columns.length) = .ok B ∧
      covMatrix (dropnaRows rowsRaw) numeric_columns.length * B = 1 ∧
      B * covMatrix (dropnaRows rowsRaw) numeric_columns.length = 1 ∧
      ((dropnaRows rowsRaw).length = material.length →
        plot_t2_chart df numeric_columns f_ppf =
          .ok { T2 := (dropnaRows rowsRaw).map
                  (t2_of_row B (fun j => colMeanAt (dropnaRows rowsRaw) j))
                UCL := t2Scale numeric_columns.length (dropnaRows rowsRaw).length * f_ppf })) ∧
  ((covMatrix (dropnaRows rowsRaw) numeric_columns.length).det = 0 →
    plot_t2_chart df numeric_columns f_ppf = .error .linAlgError)

/-- Two-column frame used to exhibit the `plot_ecdf` size bug: the column
`a` has 2 observations while the frame has 4 cells. -/
def dfC4 : DataFrame := ⟨[("a", [some 1, some 2]), ("b", [some 7, some 8])]⟩

/-- Concrete frame for the T² witness: two numeric columns with an
invertible sample covariance matrix plus the label column. -/
def dfT2w : DataFrame :=
  ⟨[("a", [some 1, some 2, some 3]), ("b", [some 1, some 3, some 2]),
    ("material_salida", [some 10, some 20, some 30])]⟩

/-- The selected raw rows of `dfT2w` over columns `a`, `b`. -/
def rowsT2w : List (List (Option ℚ)) :=
  [[some 1, some 1], [some 2, some 3], [some 3, some 2]]

/-- The label column of `dfT2w`. -/
def matT2w : List (Option ℚ) := [some 10, some 20, some 30]

/-- One-column frame used for the count-chart limit witnesses. -/
def dfCw : DataFrame := ⟨[("x", [some 1, some 4])]⟩

/-- Frame with value, sample-size and label columns for the u-chart
limit witness. -/
def dfUw : DataFrame :=
  ⟨[("t2", [some 1, some 6]), ("sample_size", [some 2, some 4]),
    ("material_salida", [some 7, some 8])]⟩

/-! ### Helper lemmas -/

theorem DataFrame.getCol_of_not_mem (df : DataFrame) (name : String)
    (h : name ∉ df.names) : df.getCol name = .error (.keyError name) := by
  have hf : df.cols.find? (fun c => c.1 == name) = none := by
    rw [List.find?_eq_none]
    intro c hc hbeq
    exact h (List.mem_map.2 ⟨c, hc, (beq_iff_eq.1 hbeq)⟩)
  simp [DataFrame.getCol, hf]

theorem DataFrame.getCol_of_mem (df : DataFrame) (name : String)
    (h : name ∈ df.names) : ∃ v, df.getCol name = .ok v := by
  have hf : (df.cols.find? (fun c => c.1 == name)).isSome := by
    rw [List.find?_isSome]
    obtain ⟨c, hc, he⟩ := List.mem_map.1 h
    exact ⟨c, hc, by simp [he]⟩
  obtain ⟨c, hc⟩ := Option.isSome_iff_exists.1 hf
  exact ⟨c.2, by simp [DataFrame.getCol, hc]⟩

theorem mapM_getCol_ok (df : DataFrame) (names : List String)
    (h : ∀ c ∈ names, c ∈ df.names) :
    ∃ ls, names.mapM df.getCol = .ok ls := by
  induction names with
  | nil => exact ⟨[], rfl⟩
  | cons a l ih =>
      obtain ⟨v, hv⟩ := df.getCol_of_mem a (h a (by simp))
      obtain ⟨ls, hls⟩ := ih (fun c hc => h c (by simp [hc]))
      refine ⟨v :: ls, ?_⟩
      rw [List.mapM_cons, hv, hls]
      rfl

theorem listMean_nonneg (l : List ℚ) (h : ∀ v ∈ l, 0 ≤ v) :
    0 ≤ listMean l :=
  div_nonneg (List.sum_nonneg h) (Nat.cast_nonneg _)

theorem count_defects_c_nonneg (lower_spec upper_spec : Option ℚ)
    (x : Option ℚ) : 0 ≤ count_defects_c lower_spec upper_spec x := by
  rcases x with _ | v
  · simp [count_defects_c]
  · rw [count_defects_c]
    split_ifs <;> norm_num

theorem is_defective_np_nonneg (lower_spec upper_spec : Option ℚ)
    (x : Option ℚ) : 0 ≤ is_defective_np lower_spec upper_spec x := by
  rcases x with _ | v
  · simp [is_defective_np]
  · rw [is_defective_np]
    split_ifs <;> norm_num

theorem is_defective_p_nonneg (lower_spec upper_spec : Option ℚ)
    (x : Option ℚ) : 0 ≤ is_defective_p lower_spec upper_spec x := by
  rcases x with _ | v
  · simp [is_defective_p]
  · rw [is_defective_p]
    split_ifs <;> norm_num

theorem count_defects_u_nonneg (lower_spec upper_spec : Option ℚ)
    (x : Option ℚ) : 0 ≤ count_defects_u lower_spec upper_spec x := by
  rcases x with _ | v
  · simp [count_defects_u]
  · rw [count_defects_u]
    split_ifs <;> norm_num

theorem mem_of_mem_groupsOf {s : ℕ} {l : List α} {g : List α}
    (hg : g ∈ groupsOf s l) {v : α} (hv : v ∈ g) : v ∈ l := by
  rw [groupsOf] at hg
  obtain ⟨j, _, rfl⟩ := List.mem_map.1 hg
  exact List.mem_of_mem_drop (List.mem_of_mem_take hv)

theorem groupsOf_ne_nil {s : ℕ} {l : List ℚ} (hs : 1 ≤ s) (hl : l ≠ []) :
    groupsOf s l ≠ [] := by
  rw [groupsOf]
  have hlen : 0 < l.length := List.length_pos.2 hl
  have hdiv : 1 ≤ (l.length + s - 1) / s :=
    (Nat.one_le_div_iff (by omega)).2 (by omega)
  simp only [ne_eq, List.map_eq_nil_iff, List.range_eq_nil]
  omega

theorem chunksExact_length {s k : ℕ} (l : List α) :
    (chunksExact s k l).length = k := by
  simp [chunksExact]

theorem getD_replicate {c : ℚ} : ∀ (n i : ℕ), i < n →
    (List.replicate n c).getD i 0 = c := by
  intro n
  induction n with
  | zero => intro i hi; exact absurd hi (Nat.not_lt_zero i)
  | succ m ih =>
      intro i hi
      cases i with
      | zero => simp [List.replicate]
      | succ j => simpa [List.replicate] using ih j (by omega)

theorem ewmaAux_length (lambda_value prev : ℚ) (l : List ℚ) :
    (ewmaAux lambda_value prev l).length = l.length := by
  induction l generalizing prev with
  | nil => rfl
  | cons v rest ih => simp [ewmaAux, ih]

theorem ewmaAux_getD_succ (lambda_value : ℚ) :
    ∀ (l : List ℚ) (prev : ℚ) (i : ℕ), i < l.length →
      (prev :: ewmaAux lambda_value prev l).getD (i + 1) 0 =
        lambda_value * l.getD i 0 +
          (1 - lambda_value) * (prev :: ewmaAux lambda_value prev l).getD i 0 := by
  intro l
  induction l with
  | nil => intro prev i hi; exact absurd hi (by simp)
  | cons v rest ih =>
      intro prev i hi
      cases i with
      | zero => simp [ewmaAux]
      | succ j =>
          have hj : j < rest.length := by simpa using hi
          simpa [ewmaAux] using ih (lambda_value * v + (1 - lambda_value) * prev) j hj

theorem ewmaAux_const (lambda_value c : ℚ) : ∀ (m : ℕ),
    ewmaAux lambda_value c (List.replicate m c) = List.replicate m c := by
  intro m
  induction m with
  | zero => rfl
  | succ j ih =>
      have he : lambda_value * c + (1 - lambda_value) * c = c := by ring
      simp [List.replicate, ewmaAux, he, ih]

theorem listMean_replicate {c : ℚ} {n : ℕ} (hn : 1 ≤ n) :
    listMean (List.replicate n c) = c := by
  have hne : ((n : ℚ)) ≠ 0 := by positivity
  rw [listMean]
  rw [List.sum_replicate, List.length_replicate, nsmul_eq_mul]
  field_simp

theorem zipWith_sub_tail (l : List ℚ) :
    List.zipWith (fun a b => |b - a|) l l.tail =
      (List.range (l.length - 1)).map
        (fun i => |l.getD (i + 1) 0 - l.getD i 0|) := by
  induction l with
  | nil => rfl
  | cons a tl ih =>
      cases tl with
      | nil => rfl
      | cons b tl2 =>
          have ihb := ih
          simp only [List.tail_cons] at ihb ⊢
          have hrange : List.range ((a :: b :: tl2).length - 1) =
              0 :: (List.range ((b :: tl2).length - 1)).map Nat.succ := by
            simp [List.range_succ_eq_map]
          rw [hrange]
          simp only [List.zipWith_cons_cons, List.map_cons, List.map_map]
          congr 1

theorem constA2_none (s : ℕ) (h : s < 2 ∨ 10 < s) : constA2 s = none := by
  rcases h with h | h
  · interval_cases s <;> rfl
  · obtain ⟨m, rfl⟩ : ∃ m, s = m + 11 := ⟨s - 11, by omega⟩
    rfl

theorem constD3_none (s : ℕ) (h : s < 2 ∨ 10 < s) : constD3 s = none := by
  rcases h with h | h
  · interval_cases s <;> rfl
  · obtain ⟨m, rfl⟩ : ∃ m, s = m + 11 := ⟨s - 11, by omega⟩
    rfl

theorem constD4_none (s : ℕ) (h : s < 2 ∨ 10 < s) : constD4 s = none := by
  rcases h with h | h
  · interval_cases s <;> rfl
  · obtain ⟨m, rfl⟩ : ∃ m, s = m + 11 := ⟨s - 11, by omega⟩
    rfl

theorem constA3_none (s : ℕ) (h : s < 2 ∨ 10 < s) : constA3 s = none := by
  rcases h with h | h
  · interval_cases s <;> rfl
  · obtain ⟨m, rfl⟩ : ∃ m, s = m + 11 := ⟨s - 11, by omega⟩
    rfl

theorem constB3_none (s : ℕ) (h : s < 2 ∨ 10 < s) : constB3 s = none := by
  rcases h with h | h
  · interval_cases s <;> rfl
  · obtain ⟨m, rfl⟩ : ∃ m, s = m + 11 := ⟨s - 11, by omega⟩
    rfl

theorem constB4_none (s : ℕ) (h : s < 2 ∨ 10 < s) : constB4 s = none := by
  rcases h with h | h
  · interval_cases s <;> rfl
  · obtain ⟨m, rfl⟩ : ∃ m, s = m + 11 := ⟨s - 11, by omega⟩
    rfl

theorem constR_some (s : ℕ) (h2 : 2 ≤ s) (h10 : s ≤ 10) :
    ∃ a d3 d4, constA2 s = some a ∧ constD3 s = some d3 ∧ constD4 s = some d4 := by
  interval_cases s <;> exact ⟨_, _, _, rfl, rfl, rfl⟩

theorem constS_some (s : ℕ) (h2 : 2 ≤ s) (h10 : s ≤ 10) :
    ∃ a b3 b4, constA3 s = some a ∧ constB3 s = some b3 ∧ constB4 s = some b4 := by
  interval_cases s <;> exact ⟨_, _, _, rfl, rfl, rfl⟩

theorem range_map_getLast? {α : Type} (f : ℕ → α) (n : ℕ) :
    ((List.range (n + 1)).map f).getLast? = some (f n) := by
  rw [List.range_succ, List.map_append]
  simp

theorem exceptOkBind {α β : Type} (a : α) (f : α → Except PyError β) :
    ((Except.ok a : Except PyError α) >>= f) = f a := rfl

theorem exceptErrorBind {α β : Type} (e : PyError) (f : α → Except PyError β) :
    ((Except.error e : Except PyError α) >>= f) = Except.error e := rfl

theorem DataFrame.getCol_cases (df : DataFrame) (name : String) :
    (∃ v, df.getCol name = .ok v) ∨
      df.getCol name = .error (.keyError name) := by
  rw [DataFrame.getCol]
  cases h : df.cols.find? (fun c => c.1 == name) with
  | none => exact Or.inr rfl
  | some c => exact Or.inl ⟨c.2, rfl⟩

/-! ### The claims -/

/-- C10: in `plot_c_chart`, `plot_np_chart`, `plot_p_chart` and
`plot_u_chart`, a value exactly equal to a specification limit is counted
as conforming: only values strictly below `lower_spec` or strictly above
`upper_spec` contribute to the defect count, for every input value and
every combination of given limits. -/
theorem claim_C10_strict_spec_boundaries (lower_spec upper_spec : Option ℚ)
    (v : ℚ) :
    (belowSpecB lower_spec v = true ↔ ∃ lv, lower_spec = some lv ∧ v < lv) ∧
    (aboveSpecB upper_spec v = true ↔ ∃ uv, upper_spec = some uv ∧ uv < v) ∧
    (count_defects_c lower_spec upper_spec (some v) = 0 ↔
      belowSpecB lower_spec v = false ∧ aboveSpecB upper_spec v = false) ∧
    (is_defective_np lower_spec upper_spec (some v) = 1 ↔
      (belowSpecB lower_spec v = true ∨ aboveSpecB upper_spec v = true)) ∧
    (is_defective_np lower_spec upper_spec (some v) = 0 ↔
      (belowSpecB lower_spec v = false ∧ aboveSpecB upper_spec v = false)) ∧
    (is_defective_p lower_spec upper_spec (some v) =
      is_defective_np lower_spec upper_spec (some v)) ∧
    (count_defects_u lower_spec upper_spec (some v) =
      is_defective_np lower_spec upper_spec (some v)) ∧
    belowSpecB (some v) v = false ∧ aboveSpecB (some v) v = false ∧
    count_defects_c (some v) (some v) (some v) = 0 ∧
    is_defective_np (some v) (some v) (some v) = 0 ∧
    is_defective_p (some v) (some v) (some v) = 0 ∧
    count_defects_u (some v) (some v) (some v) = 0 := by
  refine ⟨?_, ?_, ?_, ?_, ?_, ?_, ?_, ?_, ?_, ?_, ?_, ?_, ?_⟩
  · cases lower_spec <;> simp [belowSpecB]
  · cases upper_spec <;> simp [aboveSpecB]
  · cases hb : belowSpecB lower_spec v <;>
      cases ha : aboveSpecB upper_spec v <;>
      norm_num [count_defects_c, hb, ha]
  · cases hb : belowSpecB lower_spec v <;>
      cases ha : aboveSpecB upper_spec v <;>
      norm_num [is_defective_np, hb, ha]
  · cases hb : belowSpecB lower_spec v <;>
      cases ha : aboveSpecB upper_spec v <;>
      norm_num [is_defective_np, hb, ha]
  · rw [is_defective_p, is_defective_np]
  · rw [count_defects_u, is_defective_np]
  · simp [belowSpecB]
  · simp [aboveSpecB]
  · norm_num [count_defects_c, belowSpecB, aboveSpecB]
  · norm_num [is_defective_np, belowSpecB, aboveSpecB]
  · norm_num [is_defective_p, belowSpecB, aboveSpecB]
  · norm_num [count_defects_u, belowSpecB, aboveSpecB]

/-- Instantiation of C10 at `lower_spec = 1`, `upper_spec = 3`, `v = 1`:
the boundary value is conforming. -/
theorem claim_C10_witness :
    (belowSpecB (some 1) 1 = true ↔ ∃ lv, (some 1 : Option ℚ) = some lv ∧ (1 : ℚ) < lv) ∧
    (aboveSpecB (some 3) 1 = true ↔ ∃ uv, (some 3 : Option ℚ) = some uv ∧ uv < (1 : ℚ)) ∧
    (count_defects_c (some 1) (some 3) (some 1) = 0 ↔
      belowSpecB (some 1) 1 = false ∧ aboveSpecB (some 3) 1 = false) ∧
    (is_defective_np (some 1) (some 3) (some 1) = 1 ↔
      (belowSpecB (some 1) 1 = true ∨ aboveSpecB (some 3) 1 = true)) ∧
    (is_defective_np (some 1) (some 3) (some 1) = 0 ↔
      (belowSpecB (some 1) 1 = false ∧ aboveSpecB (some 3) 1 = false)) ∧
    (is_defective_p (some 1) (some 3) (some 1) =
      is_defective_np (some 1) (some 3) (some 1)) ∧
    (count_defects_u (some 1) (some 3) (some 1) =
      is_defective_np (some 1) (some 3) (some 1)) ∧
    belowSpecB (some 1) 1 = false ∧ aboveSpecB (some 1) 1 = false ∧
    count_defects_c (some 1) (some 1) (some 1) = 0 ∧
    is_defective_np (some 1) (some 1) (some 1) = 0 ∧
    is_defective_p (some 1) (some 1) (some 1) = 0 ∧
    count_defects_u (some 1) (some 1) (some 1) = 0 :=
  claim_C10_strict_spec_boundaries (some 1) (some 3) 1

/-- C3: in `plot_ewma_chart`, the EWMA sequence over a non-empty series
`x` has the length of `x`, starts at `mean x`, obeys
`ewma[i] = λ·x[i] + (1-λ)·ewma[i-1]` for `i ≥ 1`, and on a constant
series with `λ ∈ (0, 1]` is constantly `x[0]`. -/
theorem claim_C3_ewma_recurrence (x : List ℚ) (lambda_value l_value : ℚ)
    (hx : x ≠ []) :
    (plot_ewma_chart x lambda_value l_value).ewma.length = x.length ∧
    (plot_ewma_chart x lambda_value l_value).ewma.getD 0 0 = listMean x ∧
    (∀ i, i + 1 < x.length →
      (plot_ewma_chart x lambda_value l_value).ewma.getD (i + 1) 0 =
        lambda_value * x.getD (i + 1) 0 +
          (1 - lambda_value) *
            (plot_ewma_chart x lambda_value l_value).ewma.getD i 0) ∧
    (0 < lambda_value → lambda_value ≤ 1 →
      ∀ c, x = List.replicate x.length c →
        ∀ i, i < x.length →
          (plot_ewma_chart x lambda_value l_value).ewma.getD i 0 =
            x.getD 0 0) := by
  have hew : (plot_ewma_chart x lambda_value l_value).ewma =
      ewmaList lambda_value x := rfl
  cases x with
  | nil => exact absurd rfl hx
  | cons h tail =>
      rw [hew, ewmaList]
      refine ⟨?_, ?_, ?_, ?_⟩
      · simp [ewmaAux_length]
      · rfl
      · intro i hi
        have hi2 : i < tail.length := by simpa using hi
        have := ewmaAux_getD_succ lambda_value tail
          (listMean (h :: tail)) i hi2
        simpa using this
      · intro _ _ c hrep i hi
        have hlen : (h :: tail).length = tail.length + 1 := by simp
        rw [hlen, List.replicate_succ] at hrep
        have hc : h = c := (List.cons.injEq _ _ _ _ ▸ hrep).1
        have htail : tail = List.replicate tail.length c :=
          (List.cons.injEq _ _ _ _ ▸ hrep).2
        subst hc
        have hrepl : (h :: tail) = List.replicate (tail.length + 1) h := by
          rw [List.replicate_succ, ← htail]
        have hmu : listMean (h :: tail) = h := by
          rw [hrepl]
          exact listMean_replicate (by omega)
        rw [hmu]
        have haux : ewmaAux lambda_value h tail = tail := by
          conv_lhs => rw [htail]
          rw [ewmaAux_const lambda_value h tail.length, ← htail]
        rw [haux, hrepl]
        have hi2 : i < tail.length + 1 := by simpa using hi
        rw [getD_replicate (tail.length + 1) i hi2,
          getD_replicate (tail.length + 1) 0 (by omega)]

/-- Instantiation of C3 at `x = [3, 1, 4]`, `λ = 1/2`. -/
theorem claim_C3_witness :
    (plot_ewma_chart [3, 1, 4] (1/2) 3).ewma.length = ([3, 1, 4] : List ℚ).length ∧
    (plot_ewma_chart [3, 1, 4] (1/2) 3).ewma.getD 0 0 = listMean [3, 1, 4] ∧
    (∀ i, i + 1 < ([3, 1, 4] : List ℚ).length →
      (plot_ewma_chart [3, 1, 4] (1/2) 3).ewma.getD (i + 1) 0 =
        (1/2) * ([3, 1, 4] : List ℚ).getD (i + 1) 0 +
          (1 - 1/2) * (plot_ewma_chart [3, 1, 4] (1/2) 3).ewma.getD i 0) ∧
    (0 < (1/2 : ℚ) → (1/2 : ℚ) ≤ 1 →
      ∀ c, ([3, 1, 4] : List ℚ) = List.replicate ([3, 1, 4] : List ℚ).length c →
        ∀ i, i < ([3, 1, 4] : List ℚ).length →
          (plot_ewma_chart [3, 1, 4] (1/2) 3).ewma.getD i 0 =
            ([3, 1, 4] : List ℚ).getD 0 0) :=
  claim_C3_ewma_recurrence [3, 1, 4] (1/2) 3 (by simp)

/-- C7: `plot_imr_chart` on a column with `n ≥ 2` non-NA observations
produces moving ranges `|x[i+1] - x[i]|` of length `n - 1`; with fewer
than 2 it fails immediately with a `ValueError`. -/
theorem claim_C7_imr_moving_range (value_col : List (Option ℚ)) :
    (2 ≤ (value_col.filterMap id).length →
      ∃ r, plot_imr_chart value_col = .ok r ∧
        r.moving_ranges.length = (value_col.filterMap id).length - 1 ∧
        r.moving_ranges =
          (List.range ((value_col.filterMap id).length - 1)).map
            (fun i => |(value_col.filterMap id).getD (i + 1) 0 -
              (value_col.filterMap id).getD i 0|)) ∧
    ((value_col.filterMap id).length < 2 →
      plot_imr_chart value_col = .error
        (.valueError "At least 2 data points required for Moving Range calculation")) := by
  constructor
  · intro h2
    rw [plot_imr_chart]
    rw [if_neg (by omega)]
    refine ⟨_, rfl, ?_, ?_⟩
    · rw [zipWith_sub_tail]
      simp
    · exact zipWith_sub_tail _
  · intro h2
    rw [plot_imr_chart]
    rw [if_pos h2]

/-- Instantiation of C7 at the column `[1, 5, NaN, 2]` (3 observations). -/
theorem claim_C7_witness :
    ∃ r, plot_imr_chart [some 1, some 5, none, some 2] = .ok r ∧
      r.moving_ranges.length =
        (([some 1, some 5, none, some 2] : List (Option ℚ)).filterMap id).length - 1 ∧
      r.moving_ranges =
        (List.range ((([some 1, some 5, none, some 2] : List (Option ℚ)).filterMap id).length - 1)).map
          (fun i => |(([some 1, some 5, none, some 2] : List (Option ℚ)).filterMap id).getD (i + 1) 0 -
            (([some 1, some 5, none, some 2] : List (Option ℚ)).filterMap id).getD i 0|) :=
  (claim_C7_imr_moving_range [some 1, some 5, none, some 2]).1 (by simp)

/-- C8: each of `plot_c_chart`, `plot_np_chart`, `plot_p_chart` (and
likewise `plot_u_chart`) raises its specification-limit `ValueError`
when both limits are `None`, before any other computation (whatever the
frame and columns); when at least one limit is given this error is never
raised — the call either succeeds or fails on a missing column. -/
theorem claim_C8_spec_limit_guard (df : DataFrame)
    (column sample_size_col : String) (subgroup_size : ℕ)
    (lower_spec upper_spec : Option ℚ) :
    (lower_spec = none → upper_spec = none →
      plot_c_chart df column lower_spec upper_spec =
        .error (.valueError "You must define at least one specification limit.") ∧
      plot_np_chart df column subgroup_size lower_spec upper_spec =
        .error (.valueError "At least one of lower_spec or upper_spec must be specified.") ∧
      plot_p_chart df column subgroup_size lower_spec upper_spec =
        .error (.valueError "At least one of lower_spec or upper_spec must be defined.") ∧
      plot_u_chart df column sample_size_col lower_spec upper_spec =
        .error (.valueError "At least one of lower_spec or upper_spec must be specified.")) ∧
    (¬(lower_spec = none ∧ upper_spec = none) →
      okOrKeyError (plot_c_chart df column lower_spec upper_spec) ∧
      okOrKeyError (plot_np_chart df column subgroup_size lower_spec upper_spec) ∧
      okOrKeyError (plot_p_chart df column subgroup_size lower_spec upper_spec) ∧
      okOrKeyError (plot_u_chart df column sample_size_col lower_spec upper_spec)) := by
  constructor
  · rintro rfl rfl
    refine ⟨?_, ?_, ?_, ?_⟩ <;>
      simp [plot_c_chart, plot_np_chart, plot_p_chart, plot_u_chart]
  · intro hg
    refine ⟨?_, ?_, ?_, ?_⟩
    · rcases df.getCol_cases column with ⟨v, hv⟩ | hv
      · exact Or.inl ⟨_, by rw [plot_c_chart, if_neg hg]; rw [hv]; rfl⟩
      · exact Or.inr ⟨column, by rw [plot_c_chart, if_neg hg]; rw [hv]; rfl⟩
    · rcases df.getCol_cases column with ⟨v, hv⟩ | hv
      · exact Or.inl ⟨_, by rw [plot_np_chart, if_neg hg]; rw [hv]; rfl⟩
      · exact Or.inr ⟨column, by rw [plot_np_chart, if_neg hg]; rw [hv]; rfl⟩
    · rcases df.getCol_cases column with ⟨v, hv⟩ | hv
      · exact Or.inl ⟨_, by rw [plot_p_chart, if_neg hg]; rw [hv]; rfl⟩
      · exact Or.inr ⟨column, by rw [plot_p_chart, if_neg hg]; rw [hv]; rfl⟩
    · rcases df.getCol_cases column with ⟨v, hv⟩ | hv
      · rcases df.getCol_cases sample_size_col with ⟨w, hw⟩ | hw
        · rcases df.getCol_cases "material_salida" with ⟨m, hm⟩ | hm
          · exact Or.inl ⟨_, by
              rw [plot_u_chart, if_neg hg]; rw [hv, hw, hm]; rfl⟩
          · exact Or.inr ⟨"material_salida", by
              rw [plot_u_chart, if_neg hg]; rw [hv, hw, hm]; rfl⟩
        · exact Or.inr ⟨sample_size_col, by
            rw [plot_u_chart, if_neg hg]; rw [hv, hw]; rfl⟩
      · exact Or.inr ⟨column, by rw [plot_u_chart, if_neg hg]; rw [hv]; rfl⟩

/-- Instantiation of C8: both guard branches at a one-column frame. -/
theorem claim_C8_witness :
    (plot_c_chart ⟨[("x", [some 1])]⟩ "x" none none =
      .error (.valueError "You must define at least one specification limit.")) ∧
    okOrKeyError (plot_c_chart ⟨[("x", [some 1])]⟩ "x" (some 1) none) ∧
    okOrKeyError (plot_u_chart ⟨[("x", [some 1])]⟩ "x" "n" (some 1) none) :=
  ⟨((claim_C8_spec_limit_guard ⟨[("x", [some 1])]⟩ "x" "n" 10 none none).1
      rfl rfl).1,
   ((claim_C8_spec_limit_guard ⟨[("x", [some 1])]⟩ "x" "n" 10 (some 1) none).2
      (by simp)).1,
   ((claim_C8_spec_limit_guard ⟨[("x", [some 1])]⟩ "x" "n" 10 (some 1) none).2
      (by simp)).2.2.2⟩

/-- C9: `plot_u_chart` and `plot_t2_chart` read a column literally named
`material_salida` that is not among their parameters; any frame lacking
it makes the call fail with a `KeyError` even when every declared
parameter is valid and every referenced parameter column exists. -/
theorem claim_C9_material_salida_dependency
    (dfu : DataFrame) (column sample_size_col : String)
    (lower_spec upper_spec : Option ℚ)
    (dft : DataFrame) (numeric_columns : List String) (f_ppf : ℚ)
    (hspec : ¬(lower_spec = none ∧ upper_spec = none))
    (humat : "material_salida" ∉ dfu.names)
    (hucol : column ∈ dfu.names) (husize : sample_size_col ∈ dfu.names)
    (htmat : "material_salida" ∉ dft.names)
    (htcols : ∀ c ∈ numeric_columns, c ∈ dft.names) :
    plot_u_chart dfu column sample_size_col lower_spec upper_spec =
      .error (.keyError "material_salida") ∧
    plot_t2_chart dft numeric_columns f_ppf =
      .error (.keyError "material_salida") := by
  constructor
  · obtain ⟨xs, hxs⟩ := dfu.getCol_of_mem column hucol
    obtain ⟨ns, hns⟩ := dfu.getCol_of_mem sample_size_col husize
    have hm := dfu.getCol_of_not_mem "material_salida" humat
    rw [plot_u_chart, if_neg hspec, hxs, hns, hm]
    rfl
  · obtain ⟨ls, hls⟩ := mapM_getCol_ok dft numeric_columns htcols
    have hm := dft.getCol_of_not_mem "material_salida" htmat
    have hls2 : List.mapM.loop dft.getCol numeric_columns [] = Except.ok ls := hls
    simp [plot_t2_chart, selectNumericRows, hls2, hm, Bind.bind, Except.bind]

/-- Instantiation of C9 at valid frames lacking `material_salida`. -/
theorem claim_C9_witness :
    plot_u_chart ⟨[("t2", [some 1]), ("sample_size", [some 2])]⟩
      "t2" "sample_size" (some 0) none = .error (.keyError "material_salida") ∧
    plot_t2_chart ⟨[("a", [some 1]), ("b", [some 2])]⟩ ["a", "b"] 8 =
      .error (.keyError "material_salida") :=
  claim_C9_material_salida_dependency
    ⟨[("t2", [some 1]), ("sample_size", [some 2])]⟩ "t2" "sample_size"
    (some 0) none ⟨[("a", [some 1]), ("b", [some 2])]⟩ ["a", "b"] 8
    (by simp) (by decide) (by decide) (by decide) (by decide) (by decide)

/-- C1 (amended): for every subgroup size `s ≥ 1` outside 2-10 with at
least one complete subgroup in the non-NA data, both X-bar charts raise a
`ValueError`; for every supported size `s` in 2-10 with `m ≥ s` non-NA
values the subgroup-mean sequence has length `m // s` (trailing `m mod s`
values dropped).  At `s = 0` Python instead raises `ZeroDivisionError`
(see the counterexample). -/
theorem claim_C1_xbar_subgroup_sizes (values : List (Option ℚ))
    (grouping : List String) (subgroup_size : ℕ) :
    (1 ≤ subgroup_size → (subgroup_size < 2 ∨ 10 < subgroup_size) →
      subgroup_size ≤ (values.filterMap id).length →
      (∃ msg, xbar_r_chart_plotly values grouping subgroup_size =
        .error (.valueError msg)) ∧
      (∃ msg, plot_xbar_s_chart values grouping subgroup_size =
        .error (.valueError msg))) ∧
    (2 ≤ subgroup_size → subgroup_size ≤ 10 →
      subgroup_size ≤ (values.filterMap id).length →
      (∃ r, xbar_r_chart_plotly values grouping subgroup_size = .ok r ∧
        r.xbars.length = (values.filterMap id).length / subgroup_size) ∧
      (∃ r, plot_xbar_s_chart values grouping subgroup_size = .ok r ∧
        r.xbars.length = (values.filterMap id).length / subgroup_size)) := by
  constructor
  · intro hs1 hout hm
    have hs0 : ¬(subgroup_size = 0) := by omega
    have hk : 1 ≤ (values.filterMap id).length / subgroup_size :=
      (Nat.one_le_div_iff (by omega)).2 hm
    have hk0 : ¬((values.filterMap id).length / subgroup_size = 0) := by omega
    constructor
    · rw [xbar_r_chart_plotly, if_neg hs0, if_neg hk0,
        constA2_none _ hout, constD3_none _ hout, constD4_none _ hout]
      exact ⟨_, rfl⟩
    · rw [plot_xbar_s_chart, if_neg hs0, if_neg hk0,
        constA3_none _ hout, constB3_none _ hout, constB4_none _ hout]
      exact ⟨_, rfl⟩
  · intro h2 h10 hm
    have hs0 : ¬(subgroup_size = 0) := by omega
    have hk : 1 ≤ (values.filterMap id).length / subgroup_size :=
      (Nat.one_le_div_iff (by omega)).2 hm
    have hk0 : ¬((values.filterMap id).length / subgroup_size = 0) := by omega
    constructor
    · obtain ⟨a, d3, d4, ha, hd3, hd4⟩ := constR_some subgroup_size h2 h10
      rw [xbar_r_chart_plotly, if_neg hs0, if_neg hk0, ha, hd3, hd4]
      exact ⟨_, rfl, by simp [chunksExact]⟩
    · obtain ⟨a, b3, b4, ha, hb3, hb4⟩ := constS_some subgroup_size h2 h10
      rw [plot_xbar_s_chart, if_neg hs0, if_neg hk0, ha, hb3, hb4]
      exact ⟨_, rfl, by simp [chunksExact]⟩

/-- C1 counterexample to the claim as stated: at `subgroup_size = 0`
(outside 2-10, and `m ≥ s` holds trivially) both charts fail with a
`ZeroDivisionError` from `len(data) // subgroup_size`, not a
`ValueError`. -/
theorem claim_C1_counterexample :
    xbar_r_chart_plotly [some 1] ["g"] 0 = .error .zeroDivisionError ∧
    plot_xbar_s_chart [some 1] ["g"] 0 = .error .zeroDivisionError ∧
    PyError.zeroDivisionError.isValueError = false :=
  ⟨rfl, rfl, rfl⟩

/-- Instantiation of C1: an unsupported size (1) and a supported size (2). -/
theorem claim_C1_witness :
    ((∃ msg, xbar_r_chart_plotly [some 1] ["g"] 1 = .error (.valueError msg)) ∧
     (∃ msg, plot_xbar_s_chart [some 1] ["g"] 1 = .error (.valueError msg))) ∧
    ((∃ r, xbar_r_chart_plotly [some 1, some 2, some 3, some 4, none]
        ["a", "b", "c", "d", "e"] 2 = .ok r ∧
        r.xbars.length =
          (([some 1, some 2, some 3, some 4, none] : List (Option ℚ)).filterMap id).length / 2) ∧
     (∃ r, plot_xbar_s_chart [some 1, some 2, some 3, some 4, none]
        ["a", "b", "c", "d", "e"] 2 = .ok r ∧
        r.xbars.length =
          (([some 1, some 2, some 3, some 4, none] : List (Option ℚ)).filterMap id).length / 2)) :=
  ⟨(claim_C1_xbar_subgroup_sizes [some 1] ["g"] 1).1
      (by decide) (Or.inl (by decide)) (by decide),
   (claim_C1_xbar_subgroup_sizes [some 1, some 2, some 3, some 4, none]
      ["a", "b", "c", "d", "e"] 2).2 (by decide) (by decide) (by decide)⟩

/-- C6 (amended): with the explainer contract of spec §6, the waterfall's
annotated prediction and its baseline-plus-ordered-sum both equal the
model's prediction for the plotted row; the decision plot starts every
plotted row at the *first* row's base value, so its cumulative trace ends
at the row's prediction exactly when that base value coincides with the
row's own. -/
theorem claim_C6_shap_attribution_sums (base_values : List ℚ)
    (shap_values : List (List ℚ)) (preds : List ℚ) (row_index : ℕ)
    (hc : shapContract base_values shap_values preds)
    (hi : row_index < shap_values.length) :
    ((plot_shap_waterfall_catboost base_values shap_values row_index).predicted_value =
      preds.getD row_index 0) ∧
    ((plot_shap_waterfall_catboost base_values shap_values row_index).base_value +
      (plot_shap_waterfall_catboost base_values shap_values row_index).sorted_shap.sum =
        preds.getD row_index 0) ∧
    ((plot_shap_decision_catboost base_values shap_values row_index).getLast? =
      some (base_values.getD 0 0 + (shap_values.getD row_index []).sum)) ∧
    (base_values.getD 0 0 = base_values.getD row_index 0 →
      (plot_shap_decision_catboost base_values shap_values row_index).getLast? =
        some (preds.getD row_index 0)) := by
  have hperm : (waterfall_sorted_shap (shap_values.getD row_index [])).sum =
      (shap_values.getD row_index []).sum :=
    (List.perm_insertionSort _ _).sum_eq
  have heq := hc row_index hi
  have hlast : (plot_shap_decision_catboost base_values shap_values row_index).getLast? =
      some (base_values.getD 0 0 + (shap_values.getD row_index []).sum) := by
    rw [plot_shap_decision_catboost, range_map_getLast?, List.take_length]
  refine ⟨heq, ?_, hlast, ?_⟩
  · have hproj : (plot_shap_waterfall_catboost base_values shap_values row_index).base_value +
        (plot_shap_waterfall_catboost base_values shap_values row_index).sorted_shap.sum =
        base_values.getD row_index 0 +
          (waterfall_sorted_shap (shap_values.getD row_index [])).sum := rfl
    rw [hproj, hperm]
    exact heq
  · intro hbase
    rw [hlast, hbase, heq]

/-- C6 counterexample to the claim as stated: an explainer output
satisfying the contract on which the decision plot's cumulative trace for
row 1 ends at 4 while the model's prediction for row 1 is 8, because the
plot starts from row 0's base value. -/
theorem claim_C6_counterexample :
    shapContract [1, 5] [[2], [3]] [3, 8] ∧
    (plot_shap_decision_catboost [1, 5] [[2], [3]] 1).getLast? = some 4 ∧
    (([3, 8] : List ℚ).getD 1 0 = 8) ∧ ((4 : ℚ) ≠ 8) := by
  refine ⟨?_, ?_, by norm_num, by norm_num⟩
  · intro i hi
    have hi2 : i < 2 := by simpa using hi
    interval_cases i <;> norm_num
  · norm_num [plot_shap_decision_catboost, List.range_succ]

/-- Instantiation of C6 at a contract-satisfying explainer output with a
row-independent base value. -/
theorem claim_C6_witness :
    ((plot_shap_waterfall_catboost [1, 1] [[2, -3], [4, 1]] 1).predicted_value =
      ([0, 6] : List ℚ).getD 1 0) ∧
    ((plot_shap_waterfall_catboost [1, 1] [[2, -3], [4, 1]] 1).base_value +
      (plot_shap_waterfall_catboost [1, 1] [[2, -3], [4, 1]] 1).sorted_shap.sum =
        ([0, 6] : List ℚ).getD 1 0) ∧
    ((plot_shap_decision_catboost [1, 1] [[2, -3], [4, 1]] 1).getLast? =
      some (([1, 1] : List ℚ).getD 0 0 + (([[2, -3], [4, 1]] : List (List ℚ)).getD 1 []).sum)) ∧
    (([1, 1] : List ℚ).getD 0 0 = ([1, 1] : List ℚ).getD 1 0 →
      (plot_shap_decision_catboost [1, 1] [[2, -3], [4, 1]] 1).getLast? =
        some (([0, 6] : List ℚ).getD 1 0)) :=
  claim_C6_shap_attribution_sums [1, 1] [[2, -3], [4, 1]] [0, 6] 1
    (by intro i hi
        have hi2 : i < 2 := by simpa using hi
        interval_cases i <;> norm_num)
    (by simp)

/-- C4 (code bug exhibit): `plot_ecdf` bases its cumulative sequence on
`data.size` — the cell count of the whole frame — instead of the number
of observations of the column: on a 2x2 frame whose column `a` has 2
observations it plots 4 cumulative steps of 1/4 starting at 1/4, not 2
steps of 1/2.  `plot_cumulative_error_distribution` computes the sequence
the claim describes. -/
theorem claim_C4_ecdf_size_bug :
    (plot_ecdf dfC4 "a").map EcdfResult.y = .ok [1/4, 1/2, 3/4, 1] ∧
    (plot_ecdf dfC4 "a").map (fun r => r.sorted_values.length) = .ok 2 ∧
    ([(1 : ℚ)/4, 1/2, 3/4, 1].length ≠ 2) ∧
    ((1 : ℚ)/4 ≠ 1/2) ∧
    (plot_cumulative_error_distribution [5, 5] [4, 7]).sorted_residuals = [1, 2] ∧
    (plot_cumulative_error_distribution [5, 5] [4, 7]).ecdf = [1/2, 1] := by
  refine ⟨?_, ?_, by norm_num, by norm_num, ?_, ?_⟩
  · norm_num [plot_ecdf, dfC4, DataFrame.getCol, DataFrame.size,
      List.insertionSort, List.orderedInsert, List.range_succ, Except.map,
      Bind.bind, Except.bind]
  · norm_num [plot_ecdf, dfC4, DataFrame.getCol, DataFrame.size,
      List.insertionSort, List.orderedInsert, List.range_succ, Except.map,
      Bind.bind, Except.bind]
  · norm_num [plot_cumulative_error_distribution, List.insertionSort,
      List.orderedInsert]
  · norm_num [plot_cumulative_error_distribution, List.insertionSort,
      List.orderedInsert, List.range_succ]

/-- C2: `plot_t2_chart` computes, per surviving row, the statistic
`diff @ S_inv @ diff.T` where `S_inv` is a genuine two-sided inverse of
the sample covariance matrix, and the UCL is the external F-quantile
scaled by `p (n-1)(n+1) / (n (n-p))`; a singular covariance matrix makes
the inversion error propagate to the caller uncaught. -/
theorem claim_C2_t2_statistic (df : DataFrame) (numeric_columns : List String)
    (f_ppf : ℚ) (rowsRaw : List (List (Option ℚ))) (material : List (Option ℚ))
    (hsel : selectNumericRows df numeric_columns = .ok rowsRaw)
    (hmat : df.getCol "material_salida" = .ok material)
    (hp : 2 ≤ numeric_columns.length)
    (hn : numeric_columns.length < (dropnaRows rowsRaw).length) :
    t2ClaimProp df numeric_columns f_ppf rowsRaw material := by
  rw [t2ClaimProp]
  constructor
  · intro hdet
    refine ⟨(covMatrix (dropnaRows rowsRaw) numeric_columns.length).det⁻¹ •
      (covMatrix (dropnaRows rowsRaw) numeric_columns.length).adjugate,
      ?_, ?_, ?_, ?_⟩
    · rw [np_linalg_inv, if_neg hdet]
    · rw [Matrix.mul_smul, Matrix.mul_adjugate, smul_smul,
        inv_mul_cancel₀ hdet, one_smul]
    · rw [Matrix.smul_mul, Matrix.adjugate_mul, smul_smul,
        inv_mul_cancel₀ hdet, one_smul]
    · intro hlen
      have hinv : np_linalg_inv
          (covMatrix (dropnaRows rowsRaw) numeric_columns.length) =
          .ok ((covMatrix (dropnaRows rowsRaw) numeric_columns.length).det⁻¹ •
            (covMatrix (dropnaRows rowsRaw) numeric_columns.length).adjugate) := by
        rw [np_linalg_inv, if_neg hdet]
      rw [plot_t2_chart, hsel, exceptOkBind, hmat, exceptOkBind]
      dsimp only
      rw [hinv, exceptOkBind, if_neg (not_not.2 hlen)]
  · intro hdet
    have hinv : np_linalg_inv
        (covMatrix (dropnaRows rowsRaw) numeric_columns.length) =
        .error .linAlgError := by
      rw [np_linalg_inv, if_pos hdet]
    rw [plot_t2_chart, hsel, exceptOkBind, hmat, exceptOkBind]
    dsimp only
    rw [hinv, exceptErrorBind]

/-- Instantiation of C2 at `dfT2w` (invertible 2x2 sample covariance). -/
theorem claim_C2_witness : t2ClaimProp dfT2w ["a", "b"] 8 rowsT2w matT2w :=
  claim_C2_t2_statistic dfT2w ["a", "b"] 8 rowsT2w matT2w rfl rfl
    (by decide) (by decide)

/-- C5: every successful count/proportion/rate chart call yields control
limits with `0 ≤ LCL ≤ CL ≤ UCL`; in the u-chart this holds per row for
its row-varying limits. -/
theorem claim_C5_limit_ordering
    (dfc : DataFrame) (colc : String) (lc uc : Option ℚ) (xsc : List (Option ℚ))
    (dfn : DataFrame) (coln : String) (sn : ℕ) (ln un : Option ℚ) (xsn : List (Option ℚ))
    (dfp : DataFrame) (colp : String) (sp2 : ℕ) (lp up : Option ℚ) (xsp : List (Option ℚ))
    (dfu : DataFrame) (colu scu : String) (lu uu : Option ℚ)
    (xsu nsu matu : List (Option ℚ))
    (hc1 : ¬(lc = none ∧ uc = none)) (hc2 : dfc.getCol colc = .ok xsc)
    (hc3 : xsc ≠ [])
    (hn1 : ¬(ln = none ∧ un = none)) (hn2 : dfn.getCol coln = .ok xsn)
    (hn3 : xsn ≠ []) (hn4 : 1 ≤ sn)
    (hp1 : ¬(lp = none ∧ up = none)) (hp2 : dfp.getCol colp = .ok xsp)
    (hp3 : xsp ≠ []) (hp4 : 1 ≤ sp2)
    (hu1 : ¬(lu = none ∧ uu = none)) (hu2 : dfu.getCol colu = .ok xsu)
    (hu3 : dfu.getCol scu = .ok nsu) (hu4 : dfu.getCol "material_salida" = .ok matu)
    (hu5 : ∀ o ∈ nsu, ∃ v, o = some v ∧ 0 < v) :
    (∃ r, plot_c_chart dfc colc lc uc = .ok r ∧
      0 ≤ r.LCL ∧ r.LCL ≤ (r.c_bar : ℝ) ∧ (r.c_bar : ℝ) ≤ r.UCL) ∧
    (∃ r, plot_np_chart dfn coln sn ln un = .ok r ∧
      0 ≤ r.LCL ∧ r.LCL ≤ (r.np_bar : ℝ) ∧ (r.np_bar : ℝ) ≤ r.UCL) ∧
    (∃ r, plot_p_chart dfp colp sp2 lp up = .ok r ∧
      0 ≤ r.LCL ∧ r.LCL ≤ (r.p_bar : ℝ) ∧ (r.p_bar : ℝ) ≤ r.UCL) ∧
    (∃ r, plot_u_chart dfu colu scu lu uu = .ok r ∧
      0 ≤ r.u_bar ∧
      ∀ i, i < r.LCL.length →
        ∃ L U, r.LCL.getD i none = some L ∧ r.UCL.getD i none = some U ∧
          0 ≤ L ∧ L ≤ (r.u_bar : ℝ) ∧ (r.u_bar : ℝ) ≤ U) := by
  refine ⟨?_, ?_, ?_, ?_⟩
  · -- c-chart
    have hres : plot_c_chart dfc colc lc uc = .ok
        { defect_counts := xsc.map (count_defects_c lc uc)
          c_bar := listMean (xsc.map (count_defects_c lc uc))
          UCL := (listMean (xsc.map (count_defects_c lc uc)) : ℝ) +
            3 * Real.sqrt ((listMean (xsc.map (count_defects_c lc uc)) : ℚ))
          LCL := max 0 ((listMean (xsc.map (count_defects_c lc uc)) : ℝ) -
            3 * Real.sqrt ((listMean (xsc.map (count_defects_c lc uc)) : ℚ))) } := by
      rw [plot_c_chart, if_neg hc1, hc2]
      rfl
    have hM : 0 ≤ listMean (xsc.map (count_defects_c lc uc)) := by
      refine listMean_nonneg _ ?_
      intro v hv
      obtain ⟨o, _, rfl⟩ := List.mem_map.1 hv
      exact count_defects_c_nonneg lc uc o
    refine ⟨_, hres, le_max_left _ _, ?_, ?_⟩
    · exact max_le (by exact_mod_cast hM) (sub_le_self _ (by positivity))
    · exact le_add_of_nonneg_right (by positivity)
  · -- np-chart
    have hres : plot_np_chart dfn coln sn ln un = .ok
        { np_values := (groupsOf sn (xsn.map (is_defective_np ln un))).map List.sum
          np_bar := listMean ((groupsOf sn (xsn.map (is_defective_np ln un))).map List.sum)
          p_bar := listMean ((groupsOf sn (xsn.map (is_defective_np ln un))).map List.sum) / (sn : ℚ)
          UCL := (sn : ℝ) *
            (((listMean ((groupsOf sn (xsn.map (is_defective_np ln un))).map List.sum) / (sn : ℚ) : ℚ) : ℝ) +
              3 * Real.sqrt ((listMean ((groupsOf sn (xsn.map (is_defective_np ln un))).map List.sum) / (sn : ℚ) *
                (1 - listMean ((groupsOf sn (xsn.map (is_defective_np ln un))).map List.sum) / (sn : ℚ)) / sn : ℚ)))
          LCL := max 0 ((sn : ℝ) *
            (((listMean ((groupsOf sn (xsn.map (is_defective_np ln un))).map List.sum) / (sn : ℚ) : ℚ) : ℝ) -
              3 * Real.sqrt ((listMean ((groupsOf sn (xsn.map (is_defective_np ln un))).map List.sum) / (sn : ℚ) *
                (1 - listMean ((groupsOf sn (xsn.map (is_defective_np ln un))).map List.sum) / (sn : ℚ)) / sn : ℚ)))) } := by
      rw [plot_np_chart, if_neg hn1, hn2]
      rfl
    have hM : 0 ≤ listMean ((groupsOf sn (xsn.map (is_defective_np ln un))).map List.sum) := by
      refine listMean_nonneg _ ?_
      intro v hv
      obtain ⟨g, hg, rfl⟩ := List.mem_map.1 hv
      refine List.sum_nonneg ?_
      intro d hd
      obtain ⟨o, _, rfl⟩ := List.mem_map.1 (mem_of_mem_groupsOf hg hd)
      exact is_defective_np_nonneg ln un o
    have hsne : ((sn : ℕ) : ℝ) ≠ 0 := Nat.cast_ne_zero.2 (by omega)
    have hcast : ((sn : ℕ) : ℝ) *
        ((listMean ((groupsOf sn (xsn.map (is_defective_np ln un))).map List.sum) / (sn : ℚ) : ℚ) : ℝ) =
        ((listMean ((groupsOf sn (xsn.map (is_defective_np ln un))).map List.sum) : ℚ) : ℝ) := by
      push_cast
      rw [mul_comm, div_mul_cancel₀ _ hsne]
    refine ⟨_, hres, le_max_left _ _, ?_, ?_⟩
    · refine max_le (by exact_mod_cast hM) ?_
      calc (sn : ℝ) *
            (((listMean ((groupsOf sn (xsn.map (is_defective_np ln un))).map List.sum) / (sn : ℚ) : ℚ) : ℝ) -
              3 * Real.sqrt _) ≤
          (sn : ℝ) *
            (((listMean ((groupsOf sn (xsn.map (is_defective_np ln un))).map List.sum) / (sn : ℚ) : ℚ) : ℝ)) := by
            refine mul_le_mul_of_nonneg_left (sub_le_self _ (by positivity)) (by positivity)
        _ = _ := hcast
    · calc ((listMean ((groupsOf sn (xsn.map (is_defective_np ln un))).map List.sum) : ℚ) : ℝ) =
          (sn : ℝ) *
            (((listMean ((groupsOf sn (xsn.map (is_defective_np ln un))).map List.sum) / (sn : ℚ) : ℚ) : ℝ)) :=
            hcast.symm
        _ ≤ _ := by
            refine mul_le_mul_of_nonneg_left (le_add_of_nonneg_right (by positivity)) (by positivity)
  · -- p-chart
    have hres : plot_p_chart dfp colp sp2 lp up = .ok
        { p_values := (groupsOf sp2 (xsp.map (is_defective_p lp up))).map
            (fun g => g.sum / (g.length : ℚ))
          p_bar := listMean ((groupsOf sp2 (xsp.map (is_defective_p lp up))).map
            (fun g => g.sum / (g.length : ℚ)))
          UCL := (listMean ((groupsOf sp2 (xsp.map (is_defective_p lp up))).map
              (fun g => g.sum / (g.length : ℚ))) : ℝ) +
            3 * Real.sqrt ((listMean ((groupsOf sp2 (xsp.map (is_defective_p lp up))).map
              (fun g => g.sum / (g.length : ℚ))) *
              (1 - listMean ((groupsOf sp2 (xsp.map (is_defective_p lp up))).map
                (fun g => g.sum / (g.length : ℚ)))) / sp2 : ℚ))
          LCL := max 0 ((listMean ((groupsOf sp2 (xsp.map (is_defective_p lp up))).map
              (fun g => g.sum / (g.length : ℚ))) : ℝ) -
            3 * Real.sqrt ((listMean ((groupsOf sp2 (xsp.map (is_defective_p lp up))).map
              (fun g => g.sum / (g.length : ℚ))) *
              (1 - listMean ((groupsOf sp2 (xsp.map (is_defective_p lp up))).map
                (fun g => g.sum / (g.length : ℚ)))) / sp2 : ℚ))) } := by
      rw [plot_p_chart, if_neg hp1, hp2]
      rfl
    have hM : 0 ≤ listMean ((groupsOf sp2 (xsp.map (is_defective_p lp up))).map
        (fun g => g.sum / (g.length : ℚ))) := by
      refine listMean_nonneg _ ?_
      intro v hv
      obtain ⟨g, hg, rfl⟩ := List.mem_map.1 hv
      refine div_nonneg ?_ (Nat.cast_nonneg _)
      refine List.sum_nonneg ?_
      intro d hd
      obtain ⟨o, _, rfl⟩ := List.mem_map.1 (mem_of_mem_groupsOf hg hd)
      exact is_defective_p_nonneg lp up o
    refine ⟨_, hres, le_max_left _ _, ?_, ?_⟩
    · exact max_le (by exact_mod_cast hM) (sub_le_self _ (by positivity))
    · exact le_add_of_nonneg_right (by positivity)
  · -- u-chart
    have hres : plot_u_chart dfu colu scu lu uu = .ok
        { defect_counts := xsu.map (count_defects_u lu uu)
          u := List.zipWith (fun d n? => n?.map (fun n => d / n))
            (xsu.map (count_defects_u lu uu)) nsu
          u_bar := (xsu.map (count_defects_u lu uu)).sum / (nsu.filterMap id).sum
          UCL := nsu.map (fun n? => n?.map (fun n =>
            (((xsu.map (count_defects_u lu uu)).sum / (nsu.filterMap id).sum : ℚ) : ℝ) +
              3 * Real.sqrt (((xsu.map (count_defects_u lu uu)).sum / (nsu.filterMap id).sum / n : ℚ))))
          LCL := nsu.map (fun n? => n?.map (fun n =>
            max 0 ((((xsu.map (count_defects_u lu uu)).sum / (nsu.filterMap id).sum : ℚ) : ℝ) -
              3 * Real.sqrt (((xsu.map (count_defects_u lu uu)).sum / (nsu.filterMap id).sum / n : ℚ)))))
          material := matu } := by
      rw [plot_u_chart, if_neg hu1, hu2, hu3, hu4]
      rfl
    have hub : 0 ≤ (xsu.map (count_defects_u lu uu)).sum / (nsu.filterMap id).sum := by
      refine div_nonneg ?_ ?_
      · refine List.sum_nonneg ?_
        intro d hd
        obtain ⟨o, _, rfl⟩ := List.mem_map.1 hd
        exact count_defects_u_nonneg lu uu o
      · refine List.sum_nonneg ?_
        intro n hn
        obtain ⟨o, ho, hoe⟩ := List.mem_filterMap.1 hn
        obtain ⟨v, hov, hv⟩ := hu5 o ho
        have hnv : n = v := by
          rw [hov] at hoe
          exact (Option.some.injEq _ _ ▸ hoe.symm)
        rw [hnv]
        exact le_of_lt hv
    refine ⟨_, hres, hub, ?_⟩
    intro i hi
    have hi2 : i < nsu.length := by simpa using hi
    obtain ⟨v, hov, hv⟩ := hu5 (nsu.get ⟨i, hi2⟩) (nsu.get_mem i hi2)
    have hge : nsu[i]? = some (some v) := by
      rw [List.getElem?_eq_getElem hi2]
      exact congrArg some hov
    refine ⟨max 0 ((((xsu.map (count_defects_u lu uu)).sum / (nsu.filterMap id).sum : ℚ) : ℝ) -
        3 * Real.sqrt (((xsu.map (count_defects_u lu uu)).sum / (nsu.filterMap id).sum / v : ℚ))),
      (((xsu.map (count_defects_u lu uu)).sum / (nsu.filterMap id).sum : ℚ) : ℝ) +
        3 * Real.sqrt (((xsu.map (count_defects_u lu uu)).sum / (nsu.filterMap id).sum / v : ℚ)),
      ?_, ?_, le_max_left _ _,
      max_le (by exact_mod_cast hub) (sub_le_self _ (by positivity)),
      le_add_of_nonneg_right (by positivity)⟩
    · rw [List.getD_eq_getElem?_getD, List.getElem?_map, hge]
      rfl
    · rw [List.getD_eq_getElem?_getD, List.getElem?_map, hge]
      rfl

/-- Instantiation of C5 at concrete two-row frames. -/
theorem claim_C5_witness :
    (∃ r, plot_c_chart dfCw "x" (some 2) none = .ok r ∧
      0 ≤ r.LCL ∧ r.LCL ≤ (r.c_bar : ℝ) ∧ (r.c_bar : ℝ) ≤ r.UCL) ∧
    (∃ r, plot_np_chart dfCw "x" 2 (some 2) none = .ok r ∧
      0 ≤ r.LCL ∧ r.LCL ≤ (r.np_bar : ℝ) ∧ (r.np_bar : ℝ) ≤ r.UCL) ∧
    (∃ r, plot_p_chart dfCw "x" 2 (some 2) none = .ok r ∧
      0 ≤ r.LCL ∧ r.LCL ≤ (r.p_bar : ℝ) ∧ (r.p_bar : ℝ) ≤ r.UCL) ∧
    (∃ r, plot_u_chart dfUw "t2" "sample_size" none (some 5) = .ok r ∧
      0 ≤ r.u_bar ∧
      ∀ i, i < r.LCL.length →
        ∃ L U, r.LCL.getD i none = some L ∧ r.UCL.getD i none = some U ∧
          0 ≤ L ∧ L ≤ (r.u_bar : ℝ) ∧ (r.u_bar : ℝ) ≤ U) :=
  claim_C5_limit_ordering
    dfCw "x" (some 2) none [some 1, some 4]
    dfCw "x" 2 (some 2) none [some 1, some 4]
    dfCw "x" 2 (some 2) none [some 1, some 4]
    dfUw "t2" "sample_size" none (some 5)
    [some 1, some 6] [some 2, some 4] [some 7, some 8]
    (by simp) rfl (by simp)
    (by simp) rfl (by simp) (by omega)
    (by simp) rfl (by simp) (by omega)
    (by simp) rfl rfl rfl
    (by intro o ho
        simp only [List.mem_cons, List.not_mem_nil, or_false] at ho
        rcases ho with rfl | rfl
        · exact ⟨2, rfl, by norm_num⟩
        · exact ⟨4, rfl, by norm_num⟩)

end DsDataviz
